import Mathlib

set_option linter.unusedVariables false

/-!
Verification of the expert-system web demo (`web_app.py`).

This file gives a shallow embedding of the algorithmic core of the
application — the bilingual normalizer, the forward-chaining rule engine
with its two rule families, the country-page extractor, the search command
dispatcher, the travel filter and the country-code lookup — and proves the
behavioural properties claimed for them.

Modelling conventions:
* Python `dict`s become association lists (`List (String × α)`) with
  insertion-order preserving update (`dictSet`) and first-match lookup
  (`dictGet`), matching CPython's insertion-ordered dictionaries.
* Python strings become Lean `String`s.  String helpers (`pyStrip`,
  `pyLower`, `pySplitWs`, …) are written by structural recursion on the
  character list so they evaluate inside the kernel.  `str.lower()` is
  modelled on ASCII letters only; every controlled-vocabulary token in the
  program is already lower-case, so this does not affect any comparison
  performed by the code under verification.
* Python truthiness of an optional string (`None` and `""` are falsy) is
  `truthyOpt`; truthiness of `facts.get(k)` (`None`/`False` falsy) is
  `fTruthy`.
* The unbounded `while changed:` loop of `forward_chain_for_country` is
  modelled by `chainRun` with an explicit pass budget; the termination
  theorem shows a budget of `rules.length` passes always suffices for the
  two rule lists shipped with the program.
-/

/-! ### Python-style string helpers -/

/-- ASCII lower-casing of one character, as used by `str.lower()` on the
ASCII range; non-ASCII characters are left unchanged. -/

def lcChar (c : Char) : Char :=
  if 65 ≤ c.toNat && c.toNat ≤ 90 then Char.ofNat (c.toNat + 32) else c

/-- `str.lower()` (ASCII model). -/

def pyLower (s : String) : String :=
  String.mk (s.data.map lcChar)

/-- Characters stripped by Python `str.strip()` (the ASCII whitespace set). -/

def isPyWs (c : Char) : Bool :=
  c == ' ' || c == '\t' || c == '\n' || c == '\r' || c == Char.ofNat 11 || c == Char.ofNat 12

/-- `str.strip()`: drop leading and trailing whitespace. -/

def pyStrip (s : String) : String :=
  String.mk (((s.data.dropWhile isPyWs).reverse.dropWhile isPyWs).reverse)

/-- Helper for `pySplitWs`: split a character list into maximal
whitespace-free words, accumulating the current (reversed) word. -/

def splitWsAux : List Char → List Char → List String
  | [], acc => if acc.isEmpty then [] else [String.mk acc.reverse]
  | c :: cs, acc =>
    if isPyWs c then
      if acc.isEmpty then splitWsAux cs [] else String.mk acc.reverse :: splitWsAux cs []
    else splitWsAux cs (c :: acc)

/-- `str.split()` with no argument: split on whitespace runs, dropping
empty fields. -/

def pySplitWs (s : String) : List String :=
  splitWsAux s.data []

/-- `sep.join(xs)`. -/

def pyJoin (sep : String) : List String → String
  | [] => ""
  | [x] => x
  | x :: xs => x ++ sep ++ pyJoin sep xs

/-- Is `p` a (character-wise) prefix of `l`? -/

def listIsPre : List Char → List Char → Bool
  | [], _ => true
  | _ :: _, [] => false
  | a :: as, b :: bs => a == b && listIsPre as bs

/-- `s.startswith(p)`. -/

def pyStartsWith (s p : String) : Bool :=
  listIsPre p.data s.data

/-- Substring occurrence on character lists. -/

def listInfix (needle : List Char) : List Char → Bool
  | [] => needle.isEmpty
  | c :: cs => listIsPre needle (c :: cs) || listInfix needle cs

/-- Python `needle in hay` for strings (substring containment). -/

def pyIn (needle hay : String) : Bool :=
  listInfix needle.data hay.data

/-- `s[:n]` for strings. -/

def pyTake (s : String) (n : Nat) : String :=
  String.mk (s.data.take n)

/-- `s.split(" ", 1)`: `none` when `s` contains no space, otherwise the
part before the first space and the remainder. -/

def pySplitFirstSpace (s : String) : Option (String × String) :=
  match go s.data with
  | none => none
  | some p => some (String.mk p.1, String.mk p.2)
where
  go : List Char → Option (List Char × List Char)
    | [] => none
    | c :: cs =>
      if c == ' ' then some ([], cs)
      else match go cs with
        | none => none
        | some p => some (c :: p.1, p.2)

/-! ### Python-style dictionaries -/

/-- `d.get(k)` on an insertion-ordered dictionary. -/

def dictGet {α : Type} : List (String × α) → String → Option α
  | [], _ => none
  | p :: ps, k => if p.1 = k then some p.2 else dictGet ps k

/-- `d[k] = v`: replace the first binding of `k` in place, or append a new
binding at the end (CPython dict semantics). -/

def dictSet {α : Type} : List (String × α) → String → α → List (String × α)
  | [], k, v => [(k, v)]
  | p :: ps, k, v => if p.1 = k then (k, v) :: ps else p :: dictSet ps k v

/-- Truthiness of an optional string: `None` and `""` are falsy. -/

def truthyOpt : Option String → Bool
  | none => false
  | some s => decide (s ≠ "")

/-- Python `a or b` where `a` is an optional string and `b` a string:
returns `a` when it is truthy, otherwise `b`. -/

def pyOrOpt (a : Option String) (b : String) : String :=
  match a with
  | none => b
  | some s => if s = "" then b else s

/-! ### Localization maps and normalizers (`web_app.py`, `_norm` and the
`*_MAP` / `*_REV` tables with their `normalize_*` functions) -/

/-- `_norm`: `(s or "").strip().lower()`. -/

def _norm (s : Option String) : String :=
  pyLower (pyStrip (s.getD ""))

def GOV_MAP : List (String × String) :=
  [("democracy", "dân chủ"), ("communist", "cộng sản"), ("monarchy", "quân chủ"),
   ("republic", "cộng hòa"), ("federal", "liên bang")]

def GOV_REV : List (String × String) := GOV_MAP.map (fun p => (p.2, p.1))

def FIELD_MAP : List (String × String) :=
  [("technology", "công nghệ"), ("manufacturing", "sản xuất"),
   ("tourism", "du lịch"), ("infrastructure", "hạ tầng")]

def FIELD_REV : List (String × String) := FIELD_MAP.map (fun p => (p.2, p.1))

def RELIGION_MAP : List (String × String) :=
  [("christianity", "thiên chúa giáo"), ("buddhism", "phật giáo"),
   ("hinduism", "ấn độ giáo"), ("islam", "hồi giáo"), ("atheist", "vô thần")]

def RELIGION_REV : List (String × String) := RELIGION_MAP.map (fun p => (p.2, p.1))

def CLIMATE_MAP : List (String × String) :=
  [("cold", "lạnh"), ("moderate", "ôn hòa"), ("hot", "nóng")]

def CLIMATE_REV : List (String × String) := CLIMATE_MAP.map (fun p => (p.2, p.1))

def TRADE_MAP : List (String × String) :=
  [("import", "nhập khẩu"), ("export", "xuất khẩu")]

def TRADE_REV : List (String × String) := TRADE_MAP.map (fun p => (p.2, p.1))

def PLACE_MAP : List (String × String) :=
  [("historical", "lịch sử"), ("hill station", "núi đồi"),
   ("desert", "sa mạc"), ("beach", "biển")]

def PLACE_REV : List (String × String) := PLACE_MAP.map (fun p => (p.2, p.1))

/-- Generic body shared by the six `normalize_*` functions: return the
normalized input if it is an English token, translate it if it is a
Vietnamese label, otherwise pass it through. -/

def normalizeWith (fwd rev : List (String × String)) (value : Option String) : String :=
  let v := _norm value
  if (dictGet fwd v).isSome then v
  else
    match dictGet rev v with
    | some en => en
    | none => v

def normalize_government (value : Option String) : String :=
  normalizeWith GOV_MAP GOV_REV value

def normalize_field (value : Option String) : String :=
  normalizeWith FIELD_MAP FIELD_REV value

def normalize_religion (value : Option String) : String :=
  normalizeWith RELIGION_MAP RELIGION_REV value

def normalize_climate (value : Option String) : String :=
  normalizeWith CLIMATE_MAP CLIMATE_REV value

def normalize_trade (value : Option String) : String :=
  normalizeWith TRADE_MAP TRADE_REV value

def normalize_place_type (value : Option String) : String :=
  normalizeWith PLACE_MAP PLACE_REV value

/-- Entity attribute mapping (a row of `countries.csv` / `Tourism.csv`). -/

abbrev Info := List (String × String)

/-- `get_field`: `info.get(en) or info.get(vi) or ""`. -/

def get_field (info : Info) (en vi : String) : String :=
  pyOrOpt (dictGet info en) (pyOrOpt (dictGet info vi) "")

/-! ### Forward-chaining rule engine (`forward_chain_for_country` and the
`rule_live_*` / `rule_work_*` rules) -/

/-- The fact store: a dictionary from fact name to boolean.  The rules of
the program only ever store `True`. -/

abbrev Facts := List (String × Bool)

/-- Evaluation context built by the expert-system request handlers.  The
Python code passes a plain dict; the handlers only ever populate these six
keys, and `ctx.get(k)` on an unpopulated key yields `None` (`none`). -/

structure Ctx where
  climate : Option String := none
  government : Option String := none
  religion : Option String := none
  mode : Option String := none
  trade : Option String := none
  domain : Option String := none

/-- Truthiness of `facts.get(k)`: `None` and `False` are falsy. -/

def fTruthy (facts : Facts) (k : String) : Bool :=
  match dictGet facts k with
  | some b => b
  | none => false

/-- A rule takes the country name, its attributes, the context and the
current fact store, and returns the updated facts together with the
"created a new fact" flag that the Python rule returns. -/

abbrev Rule := String → Info → Ctx → Facts → Facts × Bool

/-- `rule_live_climate`.  Under the guard, `ctx["climate"]` is the payload
of `ctx.climate`, so the source comparison `info_climate == ctx["climate"]`
is rendered as `some info_climate = ctx.climate`. -/

def rule_live_climate (name : String) (info : Info) (ctx : Ctx) (facts : Facts) : Facts × Bool :=
  if fTruthy facts "climate_match" || !truthyOpt ctx.climate then (facts, false)
  else if some (normalize_climate (some (get_field info "average weather" "khí hậu trung bình"))) = ctx.climate then
    (dictSet facts "climate_match" true, true)
  else (facts, false)

/-- `rule_live_government`. -/

def rule_live_government (name : String) (info : Info) (ctx : Ctx) (facts : Facts) : Facts × Bool :=
  if fTruthy facts "gov_match" || !truthyOpt ctx.government then (facts, false)
  else if some (normalize_government (some (get_field info "type of government" "hình thức chính phủ"))) = ctx.government then
    (dictSet facts "gov_match" true, true)
  else (facts, false)

/-- `rule_live_religion`. -/

def rule_live_religion (name : String) (info : Info) (ctx : Ctx) (facts : Facts) : Facts × Bool :=
  if fTruthy facts "religion_match" || !truthyOpt ctx.religion then (facts, false)
  else if some (normalize_religion (some (get_field info "major religion" "tôn giáo chính"))) = ctx.religion then
    (dictSet facts "religion_match" true, true)
  else (facts, false)

/-- `rule_live_selected`: fires once all three individual match facts are
present. -/

def rule_live_selected (name : String) (info : Info) (ctx : Ctx) (facts : Facts) : Facts × Bool :=
  if fTruthy facts "selected" then (facts, false)
  else if fTruthy facts "climate_match" && fTruthy facts "gov_match" && fTruthy facts "religion_match" then
    (dictSet facts "selected" true, true)
  else (facts, false)

def LIVE_RULES : List Rule :=
  [rule_live_climate, rule_live_government, rule_live_religion, rule_live_selected]

/-- `rule_work_field`. -/

def rule_work_field (name : String) (info : Info) (ctx : Ctx) (facts : Facts) : Facts × Bool :=
  if fTruthy facts "field_match" || !truthyOpt ctx.domain then (facts, false)
  else if some (normalize_field (some (get_field info "field domain" "lĩnh vực"))) = ctx.domain then
    (dictSet facts "field_match" true, true)
  else (facts, false)

/-- `rule_work_trade`: only applies when the context mode is `"business"`. -/

def rule_work_trade (name : String) (info : Info) (ctx : Ctx) (facts : Facts) : Facts × Bool :=
  if !(decide (ctx.mode = some "business")) || fTruthy facts "trade_match" || !truthyOpt ctx.trade then
    (facts, false)
  else if some (normalize_trade (some (get_field info "trade type" "loại thương mại"))) = ctx.trade then
    (dictSet facts "trade_match" true, true)
  else (facts, false)

/-- `rule_work_selected`: in business mode both `field_match` and
`trade_match` are required, otherwise `field_match` alone suffices. -/

def rule_work_selected (name : String) (info : Info) (ctx : Ctx) (facts : Facts) : Facts × Bool :=
  if fTruthy facts "selected" then (facts, false)
  else if ctx.mode = some "business" then
    if fTruthy facts "field_match" && fTruthy facts "trade_match" then
      (dictSet facts "selected" true, true)
    else (facts, false)
  else
    if fTruthy facts "field_match" then (dictSet facts "selected" true, true)
    else (facts, false)

def WORK_RULES : List Rule :=
  [rule_work_field, rule_work_trade, rule_work_selected]

/-- One full pass of the `for rule in rules` loop: apply every rule in
order, or-ing together the "changed" flags. -/

def runPass (rules : List Rule) (name : String) (info : Info) (ctx : Ctx) (facts : Facts) :
    Facts × Bool :=
  rules.foldl
    (fun acc r => ((r name info ctx acc.1).1, acc.2 || (r name info ctx acc.1).2))
    (facts, false)

/-- The `while changed:` loop of `forward_chain_for_country`, with an
explicit pass budget.  Returns the final facts, the number of passes
executed, and whether a fixed point (a pass with no change) was reached
within the budget. -/

def chainRun (rules : List Rule) (name : String) (info : Info) (ctx : Ctx) :
    Nat → Facts → Facts × Nat × Bool
  | 0, facts => (facts, 0, false)
  | fuel + 1, facts =>
    let p := runPass rules name info ctx facts
    if p.2 then
      let q := chainRun rules name info ctx fuel p.1
      (q.1, q.2.1 + 1, q.2.2)
    else (p.1, 1, true)

/-- `forward_chain_for_country`: run rules to a fixed point starting from
an empty fact store.  A budget of `rules.length` passes is proved
sufficient for `LIVE_RULES` and `WORK_RULES` (claim C4), so the bounded
loop coincides with the unbounded Python loop on them. -/

def forward_chain_for_country (rules : List Rule) (name : String) (info : Info) (ctx : Ctx) :
    Facts :=
  (chainRun rules name info ctx rules.length []).1

/-- The context built by the `/expert/live` handler from the three form
fields. -/

def live_context (climate_raw government_raw religion_raw : Option String) : Ctx :=
  { climate := some (normalize_climate climate_raw)
    government := some (normalize_government government_raw)
    religion := some (normalize_religion religion_raw) }

/-- The context built by the `/expert/work` handler: `mode` is passed
through raw, `trade` and `domain` are normalized only when truthy. -/

def work_context (mode trade_raw domain_raw : Option String) : Ctx :=
  { mode := mode
    trade := if truthyOpt trade_raw then some (normalize_trade trade_raw) else none
    domain := if truthyOpt domain_raw then some (normalize_field domain_raw) else none }

/-! ### Country-page extractor (`parse_html` / `format_key`)

A marker is one `div.category` element of the document together with the
structural observations `parse_html` makes around it.  Each field records
exactly what one source expression reads from the document tree:
* `Marker.aString`  — `attr.find("a")`, and for a found tag its
  `a_tag.string` (`some none` models an `<a>` whose `.string` is `None`);
* `Marker.row`      — `attr.parent.parent.find_next_sibling("tr")`;
* `TrRow.numChildren` — `len(tr_tag)` (number of direct children);
* `TrRow.catDivs`     — the `div.category` descendants of the row, each
  with the raw first content when it is a plain string, and the stripped
  text of its `span` descendants;
* `TrRow.catDataTexts` — stripped texts of `div.category_data` descendants;
* `TrRow.tdPresent`    — truthiness of `tr_tag.find("td")` (a `td` exists
  and is non-empty, since BeautifulSoup tags are falsy when childless);
* `TrRow.tdCatData`    — the stripped text of
  `tr_tag.find("td").find("div", class_="category_data")`, `none` when the
  `td` holds no such div;
* `TrRow.rowCatData`   — the stripped text of
  `tr_tag.find("div", class_="category_data")`, `none` when absent.
-/

structure CatDiv where
  firstString : Option String
  spanTexts : List String

structure TrRow where
  numChildren : Nat
  catDivs : List CatDiv
  catDataTexts : List String
  tdPresent : Bool
  tdCatData : Option String
  rowCatData : Option String

structure Marker where
  aString : Option (Option String)
  row : Option TrRow

/-- `format_key`: keep the words before a lone `-` token, rejoined by
single spaces. -/

def takeUntilDash : List String → List String
  | [] => []
  | w :: ws => if w = "-" then [] else w :: takeUntilDash ws

def format_key (key : String) : String :=
  pyJoin " " (takeUntilDash (pySplitWs key))

/-- The multi-cell branch (`len(tr_tag) > 1`): first-content strings and
span texts of each `div.category`, then the `div.category_data` texts. -/

def catContents (row : TrRow) : List String :=
  ((row.catDivs.map (fun d =>
      (match d.firstString with
       | some s => if pyStrip s ≠ "" then [pyStrip s] else []
       | none => []) ++ d.spanTexts.filter (fun t => decide (t ≠ "")))).flatten)
    ++ row.catDataTexts.filter (fun t => decide (t ≠ ""))

/-- Extract the data string for one marker's sibling row.  In the two
single-cell branches a missing `category_data` div makes the source call
`.get_text` on `None`, which raises `AttributeError`; that is modelled by
the `.error` result. -/

def extractData (row : TrRow) : Except String String :=
  if row.numChildren > 1 then
    .ok (pyJoin "\r\n" (catContents row))
  else if row.tdPresent then
    match row.tdCatData with
    | some t => .ok t
    | none => .error "AttributeError"
  else
    match row.rowCatData with
    | some t => .ok t
    | none => .error "AttributeError"

/-- The body of the `for attr in soup.find_all("div", class_="category")`
loop: skip markers without anchor or sibling row, extract the data (which
may raise), clean the label, and merge duplicate labels CRLF-joined. -/

def processMarker (poss : List (String × String)) (m : Marker) :
    Except String (List (String × String)) :=
  match m.aString with
  | none => .ok poss
  | some aStr =>
    match m.row with
    | none => .ok poss
    | some row =>
      match extractData row with
      | .error e => .error e
      | .ok data =>
        let title := format_key (aStr.getD "")
        if title = "" then .ok poss
        else
          match dictGet poss title with
          | some old => .ok (dictSet poss title (old ++ "\r\n" ++ data))
          | none => .ok (poss ++ [(title, data)])

/-- The extraction loop of `parse_html` over the document's markers. -/

def parseLoop : List Marker → List (String × String) → Except String (List (String × String))
  | [], poss => .ok poss
  | m :: rest, poss =>
    match processMarker poss m with
    | .ok p => parseLoop rest p
    | .error e => .error e

/-- `parse_html`: label → text mapping extracted from one document. -/

def parse_html (doc : List Marker) : Except String (List (String × String)) :=
  parseLoop doc []

/-! ### Country-code lookup (`code_for_country`) -/

/-- `code_for_country`: scan the catalog lines and return the first two
characters of the first line that contains `target_country` anywhere as a
substring; `None` when no line contains it. -/

def code_for_country : List String → String → Option String
  | [], _ => none
  | line :: rest, target =>
    if pyIn target line then some (pyTake line 2)
    else code_for_country rest target

/-! ### Translated-search cache and the search command dispatcher
(`get_vi_key_val` / `do_search`) -/

/-- One entry of `search_vi_cache.json`: the pre-translated label and
value for one country/label pair. -/

structure CacheEntry where
  key_vi : Option String
  val_vi : Option String

abbrev Cache := List (String × List (String × CacheEntry))

/-- `get_vi_key_val`: look up the translated label/value, falling back to
the English text on any missing level (with Python `or`-truthiness, so
empty cached strings also fall back). -/

def get_vi_key_val (cache : Cache) (country_code key_en val_en : String) : String × String :=
  let country := (dictGet cache (pyLower country_code)).getD []
  let entry := (dictGet country key_en).getD ⟨none, none⟩
  (pyOrOpt entry.key_vi key_en, pyOrOpt entry.val_vi val_en)

/-- The special-command part of `do_search` (the `;lst` / `;keys` /
`;matches` prefixes).  `closeFn` stands for
`difflib.get_close_matches(·, ·, n=20, cutoff=0.3)`, which the settled
claims never exercise; `none` means the query is not a special command and
falls through to the fuzzy search.  `query_raw` is the raw form input;
the handler lower-cases it and strips it before testing the prefixes. -/

def do_search_special (closeFn : String → List String → List String) (cache : Cache)
    (code : String) (poss : List (String × String)) (query_raw : String) :
    Option (List (String × String)) :=
  let query := pyLower query_raw
  let special := pyStrip query
  if pyStartsWith special ";lst" || pyStartsWith special ";keys" || pyStartsWith special ";matches" then
    some
      (if pyStartsWith special ";lst" then
        poss.map (fun p => get_vi_key_val cache code p.1 p.2)
      else if pyStartsWith special ";keys" then
        poss.map (fun p => ((get_vi_key_val cache code p.1 "").1, ""))
      else
        let pattern_vi :=
          match pySplitFirstSpace special with
          | some p => pyStrip p.2
          | none => ""
        let keys := poss.map Prod.fst
        let vi_keys := keys.map (fun k => (k, (get_vi_key_val cache code k "").1))
        let matchList :=
          if pattern_vi ≠ "" then
            let matches_vi := closeFn (pyLower pattern_vi) (vi_keys.map (fun p => pyLower p.2))
            matches_vi.foldl
              (fun acc mv =>
                match vi_keys.find? (fun p => pyLower p.2 == mv && !(acc.contains p.1)) with
                | some p => acc ++ [p.1]
                | none => acc)
              []
          else keys.take 20
        matchList.map (fun m => get_vi_key_val cache code m ((dictGet poss m).getD "")))
  else none

/-! ### Travel expert handler (`expert_travel`) -/

def budget_label_map : List (String × String) :=
  [("under", "Dưới 30.000.000"), ("mid", "30–60 triệu"), ("over", "Trên 60.000.000")]

/-- The selection performed by `expert_travel`, returning the names of the
selected tourism entries.  `amount` is the result of
`float(budget_raw.replace(",", "").strip())`, modelled as an optional
rational: `none` when the conversion raises `ValueError`. -/

def expert_travel_result (amount : Option ℚ) (place_type : Option String)
    (tourism : List (String × Info)) : List String :=
  let bucket : Option String :=
    match amount with
    | none => none
    | some a =>
      if a < 30000000 then some "under"
      else if a ≤ 60000000 then some "mid"
      else some "over"
  let target_label_norm :=
    _norm (match bucket with
           | none => none
           | some b => dictGet budget_label_map b)
  if target_label_norm ≠ "" then
    tourism.foldl
      (fun acc pi =>
        let info_place := normalize_place_type (some (get_field pi.2 "type of place" "loại địa điểm"))
        if info_place ≠ normalize_place_type place_type then acc
        else if _norm (some (get_field pi.2 "budget" "ngân sách")) ≠ target_label_norm then acc
        else acc ++ [pi.1])
      []
  else []

/-- A fact store in which every stored value is `true` (the only value the
rules of this program ever store). -/

def onlyTrue (f : Facts) : Prop := ∀ k v, dictGet f k = some v → v = true

/-! ### Theory: guarded-set normal form for the rules -/

/-- Normal form of every rule of the program: when `cond` holds and the
rule's own fact `key` is not yet set, set it and report a change; do
nothing otherwise. -/

def gset (facts : Facts) (key : String) (cond : Bool) : Facts × Bool :=
  if !(fTruthy facts key) && cond then (dictSet facts key true, true)
  else (facts, false)

/-! Rewriting each rule into guarded-set normal form.  The firing
conditions below are read off the corresponding rule's guards. -/

def liveCondClimate (info : Info) (ctx : Ctx) : Bool :=
  truthyOpt ctx.climate &&
    decide (some (normalize_climate (some (get_field info "average weather" "khí hậu trung bình"))) = ctx.climate)

def liveCondGov (info : Info) (ctx : Ctx) : Bool :=
  truthyOpt ctx.government &&
    decide (some (normalize_government (some (get_field info "type of government" "hình thức chính phủ"))) = ctx.government)

def liveCondRel (info : Info) (ctx : Ctx) : Bool :=
  truthyOpt ctx.religion &&
    decide (some (normalize_religion (some (get_field info "major religion" "tôn giáo chính"))) = ctx.religion)

def workCondField (info : Info) (ctx : Ctx) : Bool :=
  truthyOpt ctx.domain &&
    decide (some (normalize_field (some (get_field info "field domain" "lĩnh vực"))) = ctx.domain)

def workCondTrade (info : Info) (ctx : Ctx) : Bool :=
  decide (ctx.mode = some "business") && truthyOpt ctx.trade &&
    decide (some (normalize_trade (some (get_field info "trade type" "loại thương mại"))) = ctx.trade)

/-! ### Theory: monotonicity of the rules -/

/-- Fact stores reachable inside one call of `forward_chain_for_country`:
the empty store, closed under applying any rule of the list. -/

inductive Reach (rules : List Rule) (name : String) (info : Info) (ctx : Ctx) : Facts → Prop
  | init : Reach rules name info ctx []
  | step {f : Facts} (r : Rule) :
      Reach rules name info ctx f → r ∈ rules → Reach rules name info ctx (r name info ctx f).1

/-! ### Theory: one pass reaches the fixed point -/

/-- The fact store produced by the first pass of the live rules, as a
function of the three firing conditions. -/

def liveF (c g r : Bool) : Facts :=
  (if c then [("climate_match", true)] else []) ++
    (if g then [("gov_match", true)] else []) ++
    (if r then [("religion_match", true)] else []) ++
    (if c && g && r then [("selected", true)] else [])

/-- The fact store produced by the first pass of the work rules, as a
function of the two firing conditions and the business-mode flag (the
trade condition entails the flag). -/

def workF (cf ct isB : Bool) : Facts :=
  (if cf then [("field_match", true)] else []) ++
    (if ct then [("trade_match", true)] else []) ++
    (if (if isB then cf && ct else cf) then [("selected", true)] else [])

/-- A marker for which the extractor's branch cannot hit a missing
`category_data` div: it is skipped early (no anchor / no sibling row), or
it takes the multi-cell branch, or the single-cell branch it takes does
find its data div. -/

def markerSafe (m : Marker) : Prop :=
  m.aString = none ∨ m.row = none ∨
    ∃ row, m.row = some row ∧
      (row.numChildren > 1 ∨ (row.tdPresent = true ∧ row.tdCatData.isSome) ∨
        (row.tdPresent = false ∧ row.rowCatData.isSome))

/-! ### Theory: dictionary lemmas -/

theorem dictGet_dictSet_self {α : Type} (m : List (String × α)) (k : String) (v : α) :
    dictGet (dictSet m k v) k = some v := by
  induction m with
  | nil => simp [dictGet, dictSet]
  | cons p ps ih =>
    by_cases h : p.1 = k
    · simp [dictGet, dictSet, h]
    · simp [dictGet, dictSet, h, ih]

theorem dictGet_dictSet_ne {α : Type} (m : List (String × α)) {k k' : String} (v : α)
    (h : k' ≠ k) : dictGet (dictSet m k v) k' = dictGet m k' := by
  have h' : ¬ k = k' := fun hh => h hh.symm
  induction m with
  | nil => simp [dictGet, dictSet, h']
  | cons p ps ih =>
    by_cases hp : p.1 = k
    · simp [dictGet, dictSet, hp, h']
    · by_cases hp' : p.1 = k'
      · simp [dictGet, dictSet, hp, hp', h]
      · simp [dictGet, dictSet, hp, hp', ih]

theorem dictGet_nil {α : Type} (k : String) : dictGet ([] : List (String × α)) k = none := rfl

theorem onlyTrue_nil : onlyTrue [] := by
  intro k v h
  simp [dictGet] at h

theorem onlyTrue_dictSet_true {f : Facts} (h : onlyTrue f) (k : String) :
    onlyTrue (dictSet f k true) := by
  intro k' v hv
  by_cases hk : k' = k
  · subst hk
    rw [dictGet_dictSet_self] at hv
    exact (Option.some.injEq _ _ ▸ hv).symm ▸ rfl
  · rw [dictGet_dictSet_ne _ _ hk] at hv
    exact h k' v hv

theorem gset_mono {f : Facts} (hot : onlyTrue f) (key : String) (cond : Bool)
    {k : String} {v : Bool} (h : dictGet f k = some v) :
    dictGet (gset f key cond).1 k = some v := by
  unfold gset
  split
  · by_cases hk : k = key
    · subst hk
      have hv := hot k v h
      subst hv
      simp [dictGet_dictSet_self]
    · simp [dictGet_dictSet_ne _ _ hk, h]
  · exact h

theorem gset_onlyTrue {f : Facts} (hot : onlyTrue f) (key : String) (cond : Bool) :
    onlyTrue (gset f key cond).1 := by
  unfold gset
  split
  · exact onlyTrue_dictSet_true hot key
  · exact hot

theorem rule_live_climate_eq (name : String) (info : Info) (ctx : Ctx) (f : Facts) :
    rule_live_climate name info ctx f = gset f "climate_match" (liveCondClimate info ctx) := by
  unfold rule_live_climate gset liveCondClimate
  cases hf : fTruthy f "climate_match" <;> cases ht : truthyOpt ctx.climate <;>
    by_cases he : some (normalize_climate (some (get_field info "average weather" "khí hậu trung bình"))) = ctx.climate <;>
    simp [hf, ht, he]

theorem rule_live_government_eq (name : String) (info : Info) (ctx : Ctx) (f : Facts) :
    rule_live_government name info ctx f = gset f "gov_match" (liveCondGov info ctx) := by
  unfold rule_live_government gset liveCondGov
  cases hf : fTruthy f "gov_match" <;> cases ht : truthyOpt ctx.government <;>
    by_cases he : some (normalize_government (some (get_field info "type of government" "hình thức chính phủ"))) = ctx.government <;>
    simp [hf, ht, he]

theorem rule_live_religion_eq (name : String) (info : Info) (ctx : Ctx) (f : Facts) :
    rule_live_religion name info ctx f = gset f "religion_match" (liveCondRel info ctx) := by
  unfold rule_live_religion gset liveCondRel
  cases hf : fTruthy f "religion_match" <;> cases ht : truthyOpt ctx.religion <;>
    by_cases he : some (normalize_religion (some (get_field info "major religion" "tôn giáo chính"))) = ctx.religion <;>
    simp [hf, ht, he]

theorem rule_live_selected_eq (name : String) (info : Info) (ctx : Ctx) (f : Facts) :
    rule_live_selected name info ctx f =
      gset f "selected"
        (fTruthy f "climate_match" && fTruthy f "gov_match" && fTruthy f "religion_match") := by
  unfold rule_live_selected gset
  cases hf : fTruthy f "selected" <;>
    cases h1 : fTruthy f "climate_match" <;> cases h2 : fTruthy f "gov_match" <;>
    cases h3 : fTruthy f "religion_match" <;> simp [hf, h1, h2, h3]

theorem rule_work_field_eq (name : String) (info : Info) (ctx : Ctx) (f : Facts) :
    rule_work_field name info ctx f = gset f "field_match" (workCondField info ctx) := by
  unfold rule_work_field gset workCondField
  cases hf : fTruthy f "field_match" <;> cases ht : truthyOpt ctx.domain <;>
    by_cases he : some (normalize_field (some (get_field info "field domain" "lĩnh vực"))) = ctx.domain <;>
    simp [hf, ht, he]

theorem rule_work_trade_eq (name : String) (info : Info) (ctx : Ctx) (f : Facts) :
    rule_work_trade name info ctx f = gset f "trade_match" (workCondTrade info ctx) := by
  unfold rule_work_trade gset workCondTrade
  by_cases hm : ctx.mode = some "business" <;> cases hf : fTruthy f "trade_match" <;>
    cases ht : truthyOpt ctx.trade <;>
    by_cases he : some (normalize_trade (some (get_field info "trade type" "loại thương mại"))) = ctx.trade <;>
    simp [hm, hf, ht, he]

theorem rule_work_selected_eq (name : String) (info : Info) (ctx : Ctx) (f : Facts) :
    rule_work_selected name info ctx f =
      gset f "selected"
        (if ctx.mode = some "business" then fTruthy f "field_match" && fTruthy f "trade_match"
         else fTruthy f "field_match") := by
  unfold rule_work_selected gset
  by_cases hm : ctx.mode = some "business" <;> cases hf : fTruthy f "selected" <;>
    cases h1 : fTruthy f "field_match" <;> cases h2 : fTruthy f "trade_match" <;>
    simp [hm, hf, h1, h2]

/-- Every rule of the program preserves existing bindings (given the
all-`true` invariant) and preserves the invariant itself. -/

theorem rule_mono_onlyTrue :
    ∀ r ∈ LIVE_RULES ++ WORK_RULES, ∀ (name : String) (info : Info) (ctx : Ctx) (f : Facts),
      onlyTrue f →
      (∀ k v, dictGet f k = some v → dictGet ((r name info ctx f).1) k = some v) ∧
        onlyTrue ((r name info ctx f).1) := by
  intro r hr name info ctx f hot
  have hr' : r = rule_live_climate ∨ r = rule_live_government ∨ r = rule_live_religion ∨
      r = rule_live_selected ∨ r = rule_work_field ∨ r = rule_work_trade ∨
      r = rule_work_selected := by
    simpa [LIVE_RULES, WORK_RULES] using hr
  rcases hr' with h | h | h | h | h | h | h <;> subst h
  · rw [rule_live_climate_eq]
    exact ⟨fun k v hv => gset_mono hot _ _ hv, gset_onlyTrue hot _ _⟩
  · rw [rule_live_government_eq]
    exact ⟨fun k v hv => gset_mono hot _ _ hv, gset_onlyTrue hot _ _⟩
  · rw [rule_live_religion_eq]
    exact ⟨fun k v hv => gset_mono hot _ _ hv, gset_onlyTrue hot _ _⟩
  · rw [rule_live_selected_eq]
    exact ⟨fun k v hv => gset_mono hot _ _ hv, gset_onlyTrue hot _ _⟩
  · rw [rule_work_field_eq]
    exact ⟨fun k v hv => gset_mono hot _ _ hv, gset_onlyTrue hot _ _⟩
  · rw [rule_work_trade_eq]
    exact ⟨fun k v hv => gset_mono hot _ _ hv, gset_onlyTrue hot _ _⟩
  · rw [rule_work_selected_eq]
    exact ⟨fun k v hv => gset_mono hot _ _ hv, gset_onlyTrue hot _ _⟩

/-- Every reachable fact store of either rule family satisfies the
all-`true` invariant. -/

theorem reach_onlyTrue {rules : List Rule}
    (hrules : rules = LIVE_RULES ∨ rules = WORK_RULES)
    {name : String} {info : Info} {ctx : Ctx} {f : Facts}
    (h : Reach rules name info ctx f) : onlyTrue f := by
  induction h with
  | init => exact onlyTrue_nil
  | step r hre hmem ih =>
    have hm : r ∈ LIVE_RULES ++ WORK_RULES := by
      rcases hrules with h' | h' <;> subst h'
      · exact List.mem_append_left _ hmem
      · exact List.mem_append_right _ hmem
    exact (rule_mono_onlyTrue r hm _ _ _ _ ih).2

theorem live_pass1 (name : String) (info : Info) (ctx : Ctx) :
    runPass LIVE_RULES name info ctx [] =
      (liveF (liveCondClimate info ctx) (liveCondGov info ctx) (liveCondRel info ctx),
       liveCondClimate info ctx || liveCondGov info ctx || liveCondRel info ctx) := by
  cases hc : liveCondClimate info ctx <;> cases hg : liveCondGov info ctx <;>
    cases hr : liveCondRel info ctx <;>
    simp only [runPass, LIVE_RULES, List.foldl, rule_live_climate_eq,
      rule_live_government_eq, rule_live_religion_eq, rule_live_selected_eq, hc, hg, hr] <;>
    decide

theorem live_pass2 (name : String) (info : Info) (ctx : Ctx) :
    runPass LIVE_RULES name info ctx
        (liveF (liveCondClimate info ctx) (liveCondGov info ctx) (liveCondRel info ctx)) =
      (liveF (liveCondClimate info ctx) (liveCondGov info ctx) (liveCondRel info ctx), false) := by
  cases hc : liveCondClimate info ctx <;> cases hg : liveCondGov info ctx <;>
    cases hr : liveCondRel info ctx <;>
    simp only [runPass, LIVE_RULES, List.foldl, rule_live_climate_eq,
      rule_live_government_eq, rule_live_religion_eq, rule_live_selected_eq, hc, hg, hr] <;>
    decide

theorem chainRun_succ (rules : List Rule) (name : String) (info : Info) (ctx : Ctx)
    (fuel : Nat) (facts : Facts) :
    chainRun rules name info ctx (fuel + 1) facts =
      (if (runPass rules name info ctx facts).2 then
        ((chainRun rules name info ctx fuel (runPass rules name info ctx facts).1).1,
         (chainRun rules name info ctx fuel (runPass rules name info ctx facts).1).2.1 + 1,
         (chainRun rules name info ctx fuel (runPass rules name info ctx facts).1).2.2)
      else ((runPass rules name info ctx facts).1, 1, true)) := rfl

theorem live_chain (name : String) (info : Info) (ctx : Ctx) :
    chainRun LIVE_RULES name info ctx 4 [] =
      (liveF (liveCondClimate info ctx) (liveCondGov info ctx) (liveCondRel info ctx),
       if liveCondClimate info ctx || liveCondGov info ctx || liveCondRel info ctx then 2 else 1,
       true) := by
  have h4 : chainRun LIVE_RULES name info ctx 4 [] = chainRun LIVE_RULES name info ctx (3 + 1) [] := rfl
  rw [h4, chainRun_succ, live_pass1 name info ctx]
  cases h : (liveCondClimate info ctx || liveCondGov info ctx || liveCondRel info ctx) with
  | false => simp [h]
  | true =>
    have h3 : chainRun LIVE_RULES name info ctx 3
        (liveF (liveCondClimate info ctx) (liveCondGov info ctx) (liveCondRel info ctx)) =
        chainRun LIVE_RULES name info ctx (2 + 1)
          (liveF (liveCondClimate info ctx) (liveCondGov info ctx) (liveCondRel info ctx)) := rfl
    simp only [h, if_true]
    rw [h3, chainRun_succ, live_pass2 name info ctx]
    simp

theorem forward_chain_live (name : String) (info : Info) (ctx : Ctx) :
    forward_chain_for_country LIVE_RULES name info ctx =
      liveF (liveCondClimate info ctx) (liveCondGov info ctx) (liveCondRel info ctx) := by
  have hlen : LIVE_RULES.length = 4 := by decide
  rw [forward_chain_for_country, hlen, live_chain]

theorem work_pass1 (name : String) (info : Info) (ctx : Ctx) :
    runPass WORK_RULES name info ctx [] =
      (workF (workCondField info ctx) (workCondTrade info ctx)
         (decide (ctx.mode = some "business")),
       workCondField info ctx || workCondTrade info ctx ||
         (if decide (ctx.mode = some "business") then
            workCondField info ctx && workCondTrade info ctx
          else workCondField info ctx)) := by
  by_cases hm : ctx.mode = some "business"
  · cases hf : workCondField info ctx <;> cases ht : workCondTrade info ctx <;>
      simp only [runPass, WORK_RULES, List.foldl, rule_work_field_eq, rule_work_trade_eq,
        rule_work_selected_eq, hf, ht, hm, if_pos, decide_eq_true_eq, if_true] <;>
      decide
  · have ht : workCondTrade info ctx = false := by
      simp [workCondTrade, hm]
    cases hf : workCondField info ctx <;>
      simp only [runPass, WORK_RULES, List.foldl, rule_work_field_eq, rule_work_trade_eq,
        rule_work_selected_eq, hf, ht, hm, if_neg, decide_eq_true_eq] <;>
      simp [workF, gset, fTruthy, dictGet, dictSet, hm]

theorem work_pass2 (name : String) (info : Info) (ctx : Ctx) :
    runPass WORK_RULES name info ctx
        (workF (workCondField info ctx) (workCondTrade info ctx)
          (decide (ctx.mode = some "business"))) =
      (workF (workCondField info ctx) (workCondTrade info ctx)
        (decide (ctx.mode = some "business")), false) := by
  by_cases hm : ctx.mode = some "business"
  · cases hf : workCondField info ctx <;> cases ht : workCondTrade info ctx <;>
      simp only [runPass, WORK_RULES, List.foldl, rule_work_field_eq, rule_work_trade_eq,
        rule_work_selected_eq, hf, ht, hm, decide_eq_true_eq, if_true] <;>
      decide
  · have ht : workCondTrade info ctx = false := by
      simp [workCondTrade, hm]
    cases hf : workCondField info ctx <;>
      simp only [runPass, WORK_RULES, List.foldl, rule_work_field_eq, rule_work_trade_eq,
        rule_work_selected_eq, hf, ht, hm, decide_eq_true_eq] <;>
      simp [workF, gset, fTruthy, dictGet, dictSet, hm]

theorem work_chain (name : String) (info : Info) (ctx : Ctx) :
    chainRun WORK_RULES name info ctx 3 [] =
      (workF (workCondField info ctx) (workCondTrade info ctx)
         (decide (ctx.mode = some "business")),
       if workCondField info ctx || workCondTrade info ctx ||
           (if decide (ctx.mode = some "business") then
              workCondField info ctx && workCondTrade info ctx
            else workCondField info ctx) then 2 else 1,
       true) := by
  have h3 : chainRun WORK_RULES name info ctx 3 [] = chainRun WORK_RULES name info ctx (2 + 1) [] := rfl
  rw [h3, chainRun_succ, work_pass1 name info ctx]
  cases h : (workCondField info ctx || workCondTrade info ctx ||
      (if decide (ctx.mode = some "business") then
         workCondField info ctx && workCondTrade info ctx
       else workCondField info ctx)) with
  | false => simp [h]
  | true =>
    have h2 : chainRun WORK_RULES name info ctx 2
        (workF (workCondField info ctx) (workCondTrade info ctx)
          (decide (ctx.mode = some "business"))) =
        chainRun WORK_RULES name info ctx (1 + 1)
          (workF (workCondField info ctx) (workCondTrade info ctx)
            (decide (ctx.mode = some "business"))) := rfl
    simp only [h, if_true]
    rw [h2, chainRun_succ, work_pass2 name info ctx]
    simp

theorem forward_chain_work (name : String) (info : Info) (ctx : Ctx) :
    forward_chain_for_country WORK_RULES name info ctx =
      workF (workCondField info ctx) (workCondTrade info ctx)
        (decide (ctx.mode = some "business")) := by
  have hlen : WORK_RULES.length = 3 := by decide
  rw [forward_chain_for_country, hlen, work_chain]

/-! ### Theory: extractor lemmas -/

theorem dictGet_eq_none_iff {α : Type} (m : List (String × α)) (k : String) :
    dictGet m k = none ↔ k ∉ m.map Prod.fst := by
  induction m with
  | nil => simp [dictGet]
  | cons p ps ih =>
    by_cases h : p.1 = k
    · simp [dictGet, h]
    · have h2 : ¬ k = p.1 := fun hh => h hh.symm
      simp [dictGet, h, ih, h2]

theorem dictSet_keys_of_mem {α : Type} (m : List (String × α)) (k : String) (v : α)
    (h : dictGet m k ≠ none) :
    (dictSet m k v).map Prod.fst = m.map Prod.fst := by
  induction m with
  | nil => simp [dictGet] at h
  | cons p ps ih =>
    by_cases hp : p.1 = k
    · simp [dictSet, hp]
    · simp [dictGet, hp] at h
      simp [dictSet, hp, ih h]

/-- One marker either leaves the label map unchanged, or replaces an
existing label in place, or appends one fresh label. -/

theorem processMarker_keys (poss : List (String × String)) (m : Marker)
    (p' : List (String × String)) (h : processMarker poss m = .ok p') :
    p'.map Prod.fst = poss.map Prod.fst ∨
      ∃ t, dictGet poss t = none ∧ p'.map Prod.fst = poss.map Prod.fst ++ [t] := by
  unfold processMarker at h
  rcases m with ⟨aS, rowS⟩
  cases aS with
  | none =>
    simp only [Except.ok.injEq] at h
    exact Or.inl (h ▸ rfl)
  | some aStr =>
    cases rowS with
    | none =>
      simp only [Except.ok.injEq] at h
      exact Or.inl (h ▸ rfl)
    | some row =>
      cases hx : extractData row with
      | error e => simp [hx] at h
      | ok data =>
        simp only [hx] at h
        by_cases ht : format_key (aStr.getD "") = ""
        · simp only [ht, if_pos, Except.ok.injEq] at h
          exact Or.inl (h ▸ rfl)
        · simp only [ht, if_neg, not_false_iff] at h
          cases hg : dictGet poss (format_key (aStr.getD "")) with
          | some old =>
            simp only [hg, Except.ok.injEq] at h
            left
            rw [← h]
            exact dictSet_keys_of_mem _ _ _ (by simp [hg])
          | none =>
            simp only [hg, Except.ok.injEq] at h
            right
            exact ⟨format_key (aStr.getD ""), hg, by simp [← h]⟩

/-- The extraction loop preserves distinctness of the labels. -/

theorem parseLoop_nodup (doc : List Marker) :
    ∀ (poss r : List (String × String)), (poss.map Prod.fst).Nodup →
      parseLoop doc poss = .ok r → (r.map Prod.fst).Nodup := by
  induction doc with
  | nil =>
    intro poss r hnd h
    simp only [parseLoop, Except.ok.injEq] at h
    exact h ▸ hnd
  | cons m rest ih =>
    intro poss r hnd h
    simp only [parseLoop] at h
    cases hp : processMarker poss m with
    | error e => simp [hp] at h
    | ok p' =>
      simp only [hp] at h
      rcases processMarker_keys poss m p' hp with hk | ⟨t, htn, hk⟩
      · exact ih p' r (hk ▸ hnd) h
      · have : (p'.map Prod.fst).Nodup := by
          rw [hk]
          simp only [List.nodup_append, List.nodup_cons, List.nodup_nil]
          exact ⟨hnd, by simp, by
            intro a ha hb
            simp at hb
            subst hb
            exact (dictGet_eq_none_iff poss a).mp htn ha⟩
        exact ih p' r this h

/-- Inversion: a marker that turns the empty map into a single entry has an
anchor, a sibling row, successfully extracted data and a non-empty cleaned
label. -/

theorem processMarker_singleton (m : Marker) (t d : String)
    (h : processMarker [] m = .ok [(t, d)]) :
    ∃ aStr row, m.aString = some aStr ∧ m.row = some row ∧ extractData row = .ok d ∧
      format_key (aStr.getD "") = t ∧ t ≠ "" := by
  unfold processMarker at h
  rcases m with ⟨aS, rowS⟩
  cases aS with
  | none => simp at h
  | some aStr =>
    cases rowS with
    | none => simp at h
    | some row =>
      cases hx : extractData row with
      | error e => simp [hx] at h
      | ok data =>
        simp only [hx] at h
        by_cases ht : format_key (aStr.getD "") = ""
        · simp [ht] at h
        · simp only [ht, if_neg, not_false_iff, dictGet_nil] at h
          simp only [dictGet, Except.ok.injEq] at h
          have h1 : format_key (aStr.getD "") = t ∧ data = d := by
            have := h
            simp only [List.nil_append, List.cons.injEq, Prod.mk.injEq] at this
            exact ⟨this.1.1, this.1.2⟩
          exact ⟨aStr, row, rfl, rfl, h1.2 ▸ hx, h1.1, h1.1 ▸ ht⟩

/-- Processing a marker whose label is already bound appends its data to
the existing entry, CRLF-separated, in place. -/

theorem processMarker_merge (m : Marker) (t d1 d2 : String)
    (h : processMarker [] m = .ok [(t, d2)]) :
    processMarker [(t, d1)] m = .ok [(t, d1 ++ "\r\n" ++ d2)] := by
  rcases processMarker_singleton m t d2 h with ⟨aStr, row, ha, hr, hx, hk, htne⟩
  simp only [processMarker, ha, hr, hx, hk]
  simp [htne, dictGet, dictSet]

/-! ### The claims -/

/-- C3: during one call of `forward_chain_for_country` (with the live or
work rule list), the fact set grows monotonically: every fact name present
in the fact mapping before a rule application is still present with the
same value after it; no fact is retracted or overwritten. -/

theorem claim_C3 :
    ∀ rules : List Rule, rules = LIVE_RULES ∨ rules = WORK_RULES →
      ∀ (name : String) (info : Info) (ctx : Ctx) (f : Facts),
        Reach rules name info ctx f →
        ∀ r ∈ rules, ∀ (k : String) (v : Bool),
          dictGet f k = some v → dictGet ((r name info ctx f).1) k = some v := by
  intro rules hrules name info ctx f hre r hr k v hv
  have hot : onlyTrue f := reach_onlyTrue hrules hre
  have hm : r ∈ LIVE_RULES ++ WORK_RULES := by
    rcases hrules with h | h <;> subst h
    · exact List.mem_append_left _ hr
    · exact List.mem_append_right _ hr
  exact (rule_mono_onlyTrue r hm name info ctx f hot).1 k v hv

/-- Witness for C3 at a concrete state: the `climate_match` fact derived by
the climate rule survives the application of the government rule. -/

theorem claim_C3_witness :
    dictGet ((rule_live_government "n" [("average weather", "cold")]
        (live_context (some "cold") none none)
        ((rule_live_climate "n" [("average weather", "cold")]
          (live_context (some "cold") none none) []).1)).1) "climate_match" = some true :=
  claim_C3 LIVE_RULES (Or.inl rfl) "n" [("average weather", "cold")]
    (live_context (some "cold") none none) _
    (Reach.step rule_live_climate Reach.init (by simp [LIVE_RULES]))
    rule_live_government (by simp [LIVE_RULES]) "climate_match" true (by decide)

/-- C4: `forward_chain_for_country` terminates on every input with the
live or work rule lists: a fixed point (a pass reporting no change) is
reached, and the number of passes performed is bounded by the length of
the rule list. -/

theorem claim_C4 :
    ∀ (name : String) (info : Info) (ctx : Ctx),
      (∃ f n, chainRun LIVE_RULES name info ctx LIVE_RULES.length [] = (f, n, true) ∧
        n ≤ LIVE_RULES.length) ∧
      (∃ f n, chainRun WORK_RULES name info ctx WORK_RULES.length [] = (f, n, true) ∧
        n ≤ WORK_RULES.length) := by
  intro name info ctx
  constructor
  · refine ⟨_, _, live_chain name info ctx, ?_⟩
    cases (liveCondClimate info ctx || liveCondGov info ctx || liveCondRel info ctx) <;> decide
  · refine ⟨_, _, work_chain name info ctx, ?_⟩
    cases (workCondField info ctx || workCondTrade info ctx ||
      (if decide (ctx.mode = some "business") then
         workCondField info ctx && workCondTrade info ctx
       else workCondField info ctx)) <;> decide

/-- C1 counterexample: a country whose normalized climate equals the
context's climate, under a context in which only the climate criterion is
set (government and religion absent), is NOT selected by the live rules —
the derived fact set does not contain `selected`, contradicting the claim. -/

theorem claim_C1_counterexample :
    dictGet (forward_chain_for_country LIVE_RULES "vn"
        [("average weather", "cold"), ("type of government", "democracy"),
         ("major religion", "islam")]
        (live_context (some "cold") none none)) "selected" = none := by decide

/-- C1 (amended): with a context built by the live handler in which
government and religion are absent, forward chaining over the live rules
never derives `selected` (the final rule demands all three match facts);
the matching entity still receives `climate_match` when its normalized
climate equals the context's climate. -/

theorem claim_C1 :
    ∀ (name : String) (info : Info) (climate_raw : Option String),
      dictGet (forward_chain_for_country LIVE_RULES name info
        (live_context climate_raw none none)) "selected" = none ∧
      (truthyOpt (live_context climate_raw none none).climate = true →
        some (normalize_climate (some (get_field info "average weather" "khí hậu trung bình"))) =
          (live_context climate_raw none none).climate →
        dictGet (forward_chain_for_country LIVE_RULES name info
          (live_context climate_raw none none)) "climate_match" = some true) := by
  intro name info climate_raw
  have hgv : (live_context climate_raw none none).government = some "" := rfl
  have hrv : (live_context climate_raw none none).religion = some "" := rfl
  have hg : liveCondGov info (live_context climate_raw none none) = false := by
    simp [liveCondGov, hgv, truthyOpt]
  have hr : liveCondRel info (live_context climate_raw none none) = false := by
    simp [liveCondRel, hrv, truthyOpt]
  constructor
  · rw [forward_chain_live]
    cases hc : liveCondClimate info (live_context climate_raw none none) <;>
      simp only [hc, hg, hr] <;> decide
  · intro h1 h2
    have hc : liveCondClimate info (live_context climate_raw none none) = true := by
      simp [liveCondClimate, h1, h2]
    rw [forward_chain_live]
    simp only [hc, hg, hr]
    decide

/-- Witness for C1 (amended) at a concrete entity whose Vietnamese climate
value normalizes to the context's climate. -/

theorem claim_C1_witness :
    dictGet (forward_chain_for_country LIVE_RULES "n" [("average weather", "lạnh")]
        (live_context (some "cold") none none)) "selected" = none ∧
    dictGet (forward_chain_for_country LIVE_RULES "n" [("average weather", "lạnh")]
        (live_context (some "cold") none none)) "climate_match" = some true :=
  ⟨(claim_C1 "n" [("average weather", "lạnh")] (some "cold")).1,
   (claim_C1 "n" [("average weather", "lạnh")] (some "cold")).2 (by decide) (by decide)⟩

/-- C2: under the business-mode work context with domain `technology` and
trade `export`, `selected` is derived iff the entity's normalized field is
`technology` and its normalized trade is `export`; under any non-business
mode with the same domain, `selected` is derived iff the normalized field
matches, independent of the entity's trade value. -/

theorem claim_C2 :
    ∀ (name : String) (info : Info),
      (dictGet (forward_chain_for_country WORK_RULES name info
          (work_context (some "business") (some "export") (some "technology"))) "selected" =
          some true ↔
        (normalize_field (some (get_field info "field domain" "lĩnh vực")) = "technology" ∧
         normalize_trade (some (get_field info "trade type" "loại thương mại")) = "export")) ∧
      (∀ mode trade_raw : Option String, mode ≠ some "business" →
        (dictGet (forward_chain_for_country WORK_RULES name info
            (work_context mode trade_raw (some "technology"))) "selected" = some true ↔
          normalize_field (some (get_field info "field domain" "lĩnh vực")) = "technology")) := by
  intro name info
  constructor
  · have hdom : (work_context (some "business") (some "export") (some "technology")).domain =
        some "technology" := rfl
    have htrd : (work_context (some "business") (some "export") (some "technology")).trade =
        some "export" := rfl
    have hmode : (work_context (some "business") (some "export") (some "technology")).mode =
        some "business" := rfl
    rw [forward_chain_work]
    by_cases h1 : normalize_field (some (get_field info "field domain" "lĩnh vực")) = "technology" <;>
      by_cases h2 : normalize_trade (some (get_field info "trade type" "loại thương mại")) = "export" <;>
      simp [workCondField, workCondTrade, workF, hdom, htrd, hmode, h1, h2, truthyOpt,
        fTruthy, dictGet]
  · intro mode trade_raw hne
    have hdom : (work_context mode trade_raw (some "technology")).domain = some "technology" := rfl
    have hmode : (work_context mode trade_raw (some "technology")).mode = mode := rfl
    have hmb : decide ((work_context mode trade_raw (some "technology")).mode = some "business") =
        false := by simp [hmode, hne]
    have hct : workCondTrade info (work_context mode trade_raw (some "technology")) = false := by
      simp [workCondTrade, hmb]
    rw [forward_chain_work]
    by_cases h1 : normalize_field (some (get_field info "field domain" "lĩnh vực")) = "technology" <;>
      simp [workCondField, workF, hdom, hmb, hct, h1, truthyOpt, fTruthy, dictGet]

/-- Witness for C2: a business query selects an entity matching both
criteria, and a job query selects an entity on the field alone (stored in
Vietnamese) despite a non-matching trade value. -/

theorem claim_C2_witness :
    dictGet (forward_chain_for_country WORK_RULES "n"
        [("field domain", "technology"), ("trade type", "export")]
        (work_context (some "business") (some "export") (some "technology"))) "selected" =
        some true ∧
    dictGet (forward_chain_for_country WORK_RULES "n"
        [("field domain", "công nghệ"), ("trade type", "import")]
        (work_context (some "job") (some "export") (some "technology"))) "selected" =
        some true :=
  ⟨(claim_C2 "n" [("field domain", "technology"), ("trade type", "export")]).1.mpr
      ⟨by decide, by decide⟩,
   ((claim_C2 "n" [("field domain", "công nghệ"), ("trade type", "import")]).2
      (some "job") (some "export") (by decide)).mpr (by decide)⟩

/-- C5 counterexample: a marker with a label anchor and a sibling row whose
single-cell branch has no `category_data` div makes `parse_html` raise
(`AttributeError` from `None.get_text`), instead of being silently
skipped as the claim states. -/

theorem claim_C5_counterexample :
    parse_html [⟨some (some "Area - comparative"), some ⟨1, [], [], false, none, none⟩⟩] =
      .error "AttributeError" := rfl

/-- C5 (amended): a marker lacking its label anchor or its following
sibling row is silently skipped, and a document whose markers are all safe
(skipped, multi-cell, or with their data div present) parses without
error; but a missing data div in the single-cell branch taken raises an
`AttributeError` rather than being skipped. -/

theorem claim_C5 :
    (∀ (poss : List (String × String)) (m : Marker),
        m.aString = none ∨ m.row = none → processMarker poss m = .ok poss) ∧
    (∀ doc : List Marker, (∀ m ∈ doc, markerSafe m) →
        ∃ r, parse_html doc = .ok r) := by
  constructor
  · intro poss m h
    rcases m with ⟨aS, rowS⟩
    rcases h with h | h
    · simp at h
      subst h
      rfl
    · simp at h
      subst h
      cases aS <;> rfl
  · intro doc
    suffices hgen : ∀ (poss : List (String × String)), (∀ m ∈ doc, markerSafe m) →
        ∃ r, parseLoop doc poss = .ok r by
      intro hsafe
      exact hgen [] hsafe
    induction doc with
    | nil => intro poss hsafe; exact ⟨poss, rfl⟩
    | cons m rest ih =>
      intro poss hsafe
      have hm : markerSafe m := hsafe m (by simp)
      have hstep : ∃ p', processMarker poss m = .ok p' := by
        rcases m with ⟨aS, rowS⟩
        rcases hm with h | h | ⟨row, hrow, hok⟩
        · simp at h; subst h; exact ⟨poss, rfl⟩
        · simp at h; subst h; cases aS <;> exact ⟨poss, rfl⟩
        · simp at hrow
          subst hrow
          cases aS with
          | none => exact ⟨poss, rfl⟩
          | some aStr =>
            have hx : ∃ d, extractData row = .ok d := by
              by_cases hc : row.numChildren > 1
              · exact ⟨pyJoin "\r\n" (catContents row), by simp [extractData, hc]⟩
              · rcases hok with h | ⟨h1, h2⟩ | ⟨h1, h2⟩
                · exact absurd h hc
                · rcases Option.isSome_iff_exists.mp h2 with ⟨d, hd⟩
                  exact ⟨d, by simp [extractData, hc, h1, hd]⟩
                · rcases Option.isSome_iff_exists.mp h2 with ⟨d, hd⟩
                  exact ⟨d, by simp [extractData, hc, h1, hd]⟩
            rcases hx with ⟨d, hd⟩
            by_cases ht : format_key (aStr.getD "") = ""
            · exact ⟨poss, by simp [processMarker, hd, ht]⟩
            · cases hg : dictGet poss (format_key (aStr.getD "")) with
              | some old =>
                exact ⟨dictSet poss (format_key (aStr.getD "")) (old ++ "\r\n" ++ d),
                  by simp [processMarker, hd, ht, hg]⟩
              | none =>
                exact ⟨poss ++ [(format_key (aStr.getD ""), d)],
                  by simp [processMarker, hd, ht, hg]⟩
      rcases hstep with ⟨p', hp'⟩
      have : ∀ m' ∈ rest, markerSafe m' := fun m' hm' => hsafe m' (by simp [hm'])
      rcases ih p' this with ⟨r, hr⟩
      exact ⟨r, by simp [parseLoop, hp', hr]⟩

/-- Witness for C5 (amended): an anchor-less marker is skipped in place,
and a two-marker document (one skippable, one safe) parses successfully. -/

theorem claim_C5_witness :
    processMarker [("x", "y")] ⟨none, some ⟨1, [], [], false, none, none⟩⟩ = .ok [("x", "y")] ∧
    ∃ r, parse_html [⟨some (some "Background"), none⟩,
        ⟨some (some "Geography"), some ⟨0, [], [], false, none, some "data"⟩⟩] = .ok r :=
  ⟨claim_C5.1 [("x", "y")] ⟨none, some ⟨1, [], [], false, none, none⟩⟩ (Or.inl rfl),
   claim_C5.2 _ (by
     intro m hm
     simp only [List.mem_cons, List.mem_singleton] at hm
     rcases hm with h | h | h
     · subst h; exact Or.inr (Or.inl rfl)
     · subst h; exact Or.inr (Or.inr ⟨_, rfl, Or.inr (Or.inr ⟨rfl, rfl⟩)⟩)
     · cases h)⟩

/-- C7: the label map never holds two entries with the same cleaned label,
and when two markers carry the same cleaned label the document parses to a
single entry for it whose value is the earlier data, then CRLF, then the
later data. -/

theorem claim_C7 :
    (∀ (doc : List Marker) (r : List (String × String)),
        parse_html doc = .ok r → (r.map Prod.fst).Nodup) ∧
    (∀ (m1 m2 : Marker) (t d1 d2 : String),
        processMarker [] m1 = .ok [(t, d1)] → processMarker [] m2 = .ok [(t, d2)] →
        parse_html [m1, m2] = .ok [(t, d1 ++ "\r\n" ++ d2)]) := by
  constructor
  · intro doc r h
    exact parseLoop_nodup doc [] r (by simp) h
  · intro m1 m2 t d1 d2 h1 h2
    have hm := processMarker_merge m2 t d1 d2 h2
    simp [parse_html, parseLoop, h1, hm]

/-- Witness for C7: two rows labelled `Background` and `Background - note`
(same cleaned label) merge into one CRLF-joined entry, earlier data
first. -/

theorem claim_C7_witness :
    parse_html [⟨some (some "Background"), some ⟨0, [], [], false, none, some "text one"⟩⟩,
        ⟨some (some "Background - note"), some ⟨0, [], [], false, none, some "text two"⟩⟩] =
      .ok [("Background", "text one" ++ "\r\n" ++ "text two")] :=
  claim_C7.2 _ _ "Background" "text one" "text two" rfl rfl

/-- C6: `normalize_government` lower-cases and trims its input; an English
government token is returned as-is, a Vietnamese label is mapped to its
English token, anything else passes through normalized only; and
`"dân chủ"` and `"democracy"` yield the same canonical token. -/

theorem claim_C6 :
    (∀ s : Option String, (dictGet GOV_MAP (_norm s)).isSome = true →
        normalize_government s = _norm s) ∧
    (∀ (s : Option String) (en : String), (dictGet GOV_MAP (_norm s)).isSome = false →
        dictGet GOV_REV (_norm s) = some en → normalize_government s = en) ∧
    (∀ s : Option String, (dictGet GOV_MAP (_norm s)).isSome = false →
        dictGet GOV_REV (_norm s) = none → normalize_government s = _norm s) ∧
    normalize_government (some "dân chủ") = "democracy" ∧
    normalize_government (some "democracy") = "democracy" := by
  refine ⟨?_, ?_, ?_, by decide, by decide⟩
  · intro s h
    simp [normalize_government, normalizeWith, h]
  · intro s en h1 h2
    simp [normalize_government, normalizeWith, h1, h2]
  · intro s h1 h2
    simp [normalize_government, normalizeWith, h1, h2]

/-- Witness for C6 on the three branches: an English token (with case and
whitespace noise), a Vietnamese label, and an unrecognized value. -/

theorem claim_C6_witness :
    normalize_government (some " Monarchy ") = _norm (some " Monarchy ") ∧
    normalize_government (some "quân chủ") = "monarchy" ∧
    normalize_government (some "empire") = _norm (some "empire") :=
  ⟨claim_C6.1 (some " Monarchy ") (by decide),
   claim_C6.2.1 (some "quân chủ") "monarchy" (by decide) (by decide),
   claim_C6.2.2.1 (some "empire") (by decide) (by decide)⟩

/-- C8: a pattern-match search command with an empty keyword returns the
translated label pairs of the first 20 extracted labels in extraction
order (all of them when fewer than 20), without raising. -/

theorem claim_C8 :
    ∀ (closeFn : String → List String → List String) (cache : Cache) (code : String)
        (poss : List (String × String)) (query_raw : String),
      pyStrip (pyLower query_raw) = ";matches" →
      do_search_special closeFn cache code poss query_raw =
        some (((poss.map Prod.fst).take 20).map
          (fun m => get_vi_key_val cache code m ((dictGet poss m).getD ""))) ∧
      (((poss.map Prod.fst).take 20).map
          (fun m => get_vi_key_val cache code m ((dictGet poss m).getD ""))).length =
        min 20 poss.length := by
  intro closeFn cache code poss query_raw h
  constructor
  · simp only [do_search_special]
    rw [h]
    rfl
  · simp [List.length_take]

/-- Witness for C8: the empty-keyword command (in mixed case with
whitespace) lists both labels of a two-label document, in order. -/

theorem claim_C8_witness :
    do_search_special (fun _ _ => []) [] "us" [("Area", "a"), ("Background", "b")]
      " ;MATCHES  " = some [("Area", "a"), ("Background", "b")] := by
  have h := claim_C8 (fun _ _ => []) [] "us" [("Area", "a"), ("Background", "b")]
    " ;MATCHES  " (by decide)
  exact h.1.trans (by decide)

/-- C9: a budget that fails to parse as a number yields an empty result
from the travel handler, with no error, regardless of the tourism data and
the selected place type. -/

theorem claim_C9 :
    ∀ (place_type : Option String) (tourism : List (String × Info)),
      expert_travel_result none place_type tourism = [] := by
  intro place_type tourism
  rfl

/-- C10: `code_for_country` returns the first two characters of the first
catalog line containing the target as a substring anywhere in the line,
and `none` when no line contains it. -/

theorem claim_C10 :
    (∀ (pre : List String) (l : String) (rest : List String) (target : String),
        pyIn target l = true → (∀ x ∈ pre, pyIn target x = false) →
        code_for_country (pre ++ l :: rest) target = some (pyTake l 2)) ∧
    (∀ (lines : List String) (target : String), (∀ x ∈ lines, pyIn target x = false) →
        code_for_country lines target = none) := by
  constructor
  · intro pre l rest target hl hpre
    induction pre with
    | nil => simp [code_for_country, hl]
    | cons x xs ih =>
      have hx : pyIn target x = false := hpre x (by simp)
      simp [code_for_country, hx, ih (fun y hy => hpre y (by simp [hy]))]
  · intro lines target h
    induction lines with
    | nil => rfl
    | cons x xs ih =>
      have hx : pyIn target x = false := h x (by simp)
      simp [code_for_country, hx, ih (fun y hy => h y (by simp [hy]))]

/-- Witness for C10: the name `India` occurs inside the earlier
`British Indian Ocean Territory` line, so it resolves to `io`, not to its
own line's code. -/

theorem claim_C10_witness :
    code_for_country ["io British Indian Ocean Territory", "in India"] "India" = some "io" := by
  have h := claim_C10.1 [] "io British Indian Ocean Territory" ["in India"] "India"
    (by decide) (fun x hx => absurd hx (List.not_mem_nil x))
  exact h.trans (by decide)
